import Mathlib

/-!
Verification development for the AIR flight-control core (StevensRockSat-C/AIR).
Each definition is a shallow embedding of a function of the Python source under
src/; the file reference is given on every definition. Machine floats are
modelled as rationals, Python ints as integers, and a Python attribute lookup
that can raise AttributeError as an Option.
-/

namespace AIR

/-- Tank lifecycle states, from the TankState enum in src/pi/tank.py
(UNKNOWN, UNSAFE, CRITICAL, UNREACHABLE, LAST_RESORT, READY, FAILED_SAMPLE,
SAMPLED; UNSAFE is rendered unsafePressure here). -/
inductive TankState
  | unknown
  | unsafePressure
  | critical
  | unreachable
  | lastResort
  | ready
  | failedSample
  | sampled
deriving DecidableEq, Repr

/-- Plumbing health states, from the PlumbingState enum in
src/pi/processes/process.py (READY, MAIN_LINE_FAILURE). -/
inductive PlumbingState
  | ready
  | mainLineFailure
deriving DecidableEq, Repr

/-! ### Python statistics.median over rationals (used by triple_pressure) -/

/-- Insert a rational into an ascending list, after entries that are ≤ it
(so that a left fold gives a stable ascending sort, as Python sorted). -/
def insertLe (x : ℚ) : List ℚ → List ℚ
  | [] => [x]
  | y :: ys => if x < y then x :: y :: ys else y :: insertLe x ys

/-- Stable ascending sort of rationals, modelling Python sorted. -/
def pySort (l : List ℚ) : List ℚ := l.foldl (fun acc x => insertLe x acc) []

/-- Python statistics.median: sort; middle element for odd length, mean of the
two middle elements for even length. Python raises StatisticsError on an empty
list; this model returns 0 there and every use below guards non-emptiness. -/
def pyMedian (l : List ℚ) : ℚ :=
  let s := pySort l
  let n := s.length
  if n = 0 then 0
  else if n % 2 = 1 then s.getD (n / 2) 0
  else (s.getD (n / 2 - 1) 0 + s.getD (n / 2) 0) / 2

/-- Python max of three values (max([p0, p1, p2])). -/
def pyMax3 (p0 p1 p2 : ℚ) : ℚ := max p0 (max p1 p2)

/-- The valid (non-sentinel) samples among three raw reads, in read order. -/
def validSamples (p0 p1 p2 : ℚ) : List ℚ :=
  [p0, p1, p2].filter (fun p => decide (p ≠ -1))

/-- NovaPressureSensor.triple_pressure (src/pi/MPRLS.py lines 362-377): three
raw reads of the pressure property, then
median of the reads that are not -1 when max(reads) is not -1, else -1. -/
def novaTriplePressure (p0 p1 p2 : ℚ) : ℚ :=
  if pyMax3 p0 p1 p2 ≠ -1 then pyMedian (validSamples p0 p1 p2) else -1

/-- MPRLSWrappedSensor.triple_pressure (src/pi/MPRLS.py lines 174-185): three
hardware reads, a read that raises contributes nothing (modelled none), then
median of the collected reads when any were collected, else -1. -/
def wrappedTriplePressure (r0 r1 r2 : Option ℚ) : ℚ :=
  let pressures := [r0, r1, r2].filterMap id
  if pressures.isEmpty then -1 else pyMedian pressures

/-! ### LogPressures (src/pi/processes/process_log_pressures.py) -/

/-- LogPressures.T_ANYTIME (line 16): the thermal bound, in Kelvin, used at any
time. -/
def tAnytime : ℚ := 470

/-- LogPressures.T_SAMPLE (line 17): the thermal bound, in Kelvin, used while
actively sampling. -/
def tSample : ℚ := 400

/-- LogPressures._time_btw_temp_checks (line 19): the minimum interval, in ms,
between thermal evaluations. -/
def timeBtwTempChecks : ℤ := 15

/-- The class-level mutable state of LogPressures (lines 14-18). -/
structure LogPressuresState where
  tempThreshReached : Bool
  currentlySampling : Bool
  timeLastSampled : ℤ
deriving DecidableEq, Repr

/-- LogPressures.get_temp_thresh_reached (lines 26-28). -/
def getTempThreshReached (st : LogPressuresState) : Bool := st.tempThreshReached

/-- LogPressures.set_temp_thresh_reached (lines 30-35): logs a transition
message when the flag rises, then stores the argument unconditionally. Returns
the new state and whether the transition message was logged. -/
def setTempThreshReached (st : LogPressuresState) (reached : Bool) :
    LogPressuresState × Bool :=
  ({ st with tempThreshReached := reached },
   !st.tempThreshReached && reached)

/-- The tank-temperature bound chosen in LogPressures.execute (line 117):
target_temp is T_SAMPLE while currently sampling, else T_ANYTIME. -/
def tankTempBound (sampling : Bool) : ℚ :=
  if sampling then tSample else tAnytime

/-- The sensor readings consumed by one LogPressures.execute call: the DPV
thermocouple single and triple reads, and per tank-sensor the current
temperature (from pressure_and_temp) and the triple temperature. -/
structure LogReadings where
  dpvTemp : ℚ
  dpvTripleTemp : ℚ
  tankTemps : List ℚ
  tankTripleTemps : List ℚ

/-- The observable result of one LogPressures.execute call: the new state,
whether a telemetry row was appended, and whether the thermal-safety
comparison block was evaluated. -/
structure LogExecResult where
  st : LogPressuresState
  rowLogged : Bool
  tempCheckRun : Bool

/-- LogPressures.execute (lines 82-126). When the thermal flag is already
tripped it appends a telemetry row and returns at line 93 without any
temperature comparison. Otherwise, if the rate gate passes (line 106), the DPV
thermocouple is compared against T_ANYTIME with a triple confirmation
(lines 108-115); failing that, every tank temperature is compared against
target_temp (T_SAMPLE while sampling, else T_ANYTIME) and the flag trips when
some tank sensor's triple temperature also reaches target_temp
(lines 117-125). -/
def logPressuresExecute (st : LogPressuresState) (now : ℤ) (r : LogReadings) :
    LogExecResult :=
  if st.tempThreshReached then ⟨st, true, false⟩
  else if now ≥ st.timeLastSampled + timeBtwTempChecks then
    let st1 : LogPressuresState := { st with timeLastSampled := now }
    if r.dpvTemp ≥ tAnytime ∧ r.dpvTripleTemp ≥ tAnytime then
      ⟨{ st1 with tempThreshReached := true }, true, true⟩
    else
      let target := tankTempBound st.currentlySampling
      if (r.tankTemps.any (fun t => decide (t ≥ target))) ∧
         (r.tankTripleTemps.any (fun t => decide (t ≥ target))) then
        ⟨{ st1 with tempThreshReached := true }, true, true⟩
      else ⟨st1, true, true⟩
  else ⟨st, true, false⟩

/-! ### Mission clock (src/pi/RTC.py) and the G-switch callback
(src/pi/utils.py) -/

/-- The state an RTCWrappedSensor instance carries (src/pi/RTC.py lines
46-73): the readiness flag; the fallback reference ref, which __init__
always assigns (line 64); and the reference instant t0, which __init__
assigns only inside its try block (line 70), so that on a sensor whose
hardware clock could not be read the attribute was never assigned at all -
modelled none, and reading it is an AttributeError. Both times are in device
ms. -/
structure RTCState where
  rtcReady : Bool
  ref : ℤ
  t0 : Option ℤ
deriving DecidableEq, Repr

/-- RTCWrappedSensor.getT0MS (lines 104-112): ref when not ready, else the
t0 attribute (none is the AttributeError raised when a ready state somehow
lacks it; every reachable ready state carries it). -/
def getT0MS (st : RTCState) : Option ℤ :=
  if st.rtcReady then st.t0 else some st.ref

/-- RTCWrappedSensor.setEstT0 (lines 75-88): its first statement reads the
prior t0 attribute (line 85), an AttributeError - none - on a state whose
constructor never assigned it; otherwise it stores the new reference in both
ref and t0 and returns the difference from the prior t0. -/
def setEstT0 (st : RTCState) (newRef : ℤ) : Option (RTCState × ℤ) :=
  (st.t0).map fun priorT0 =>
    ({ st with ref := newRef, t0 := some newRef }, newRef - priorT0)

/-- The observable result of gswitch_callback: the RTC state afterwards,
whether the correction was applied, and whether the ignore event was logged. -/
structure GswitchResult where
  rtc : RTCState
  applied : Bool
  ignoredLogged : Bool
deriving DecidableEq, Repr

/-- gswitch_callback (src/pi/utils.py lines 61-96): reads the current device
time as the candidate t0, computes its offset from getT0MS, rejects and logs
when the offset is below -120000 ms or above 5000 ms, else applies setEstT0;
none when an attribute read raises, which kills the callback instead of
applying or logging anything. -/
def gswitchCallback (st : RTCState) (now : ℤ) : Option GswitchResult :=
  (getT0MS st).bind fun priorT0 =>
    let estimatedDiffMs := now - priorT0
    if estimatedDiffMs < -120000 ∨ estimatedDiffMs > 5000 then
      some ⟨st, false, true⟩
    else
      (setEstT0 st now).map fun p => ⟨p.1, true, false⟩

/-! ### Collection (src/pi/collection.py) and the Python attribute model -/

/-- The attribute names touched on a Collection instance by the code under
verification: the ones Collection.__init__ assigns (lines 49-60), plus
up_final_stagnation_pressure and choke_pressure, which
SampleUpwards._do_sample_collection and the repository's tests and
integration scripts refer to. -/
inductive AttrName
  | num
  | up_start_time
  | down_start_time
  | bleed_duration
  | up_driving_pressure
  | down_driving_pressure
  | upwards_bleed
  | up_duration
  | down_duration
  | tank
  | sample_upwards
  | sampled_count
  | up_final_stagnation_pressure
  | choke_pressure
deriving DecidableEq, Repr

/-- The Python values a Collection attribute holds: a string, an integer, a
rational (Python float), a boolean, or a tank reference (none when the
collection has no tank). -/
inductive PyVal
  | str (s : String)
  | int (n : ℤ)
  | rat (q : ℚ)
  | bool (b : Bool)
  | tankRef (t : Option ℕ)
deriving DecidableEq, Repr

/-- A Python object as its attribute dictionary: the pairs set on self, in
assignment order. -/
structure PyObject where
  attrs : List (AttrName × PyVal)
deriving DecidableEq, Repr

/-- Python attribute lookup: the value stored under the name, none when the
name was never assigned (an AttributeError in Python). -/
def pyGetAttr (o : PyObject) (a : AttrName) : Option PyVal :=
  (o.attrs.find? (fun p => decide (p.1 = a))).map Prod.snd

/-- Collection.__init__ (src/pi/collection.py lines 39-60): the attribute
dictionary the constructor builds, with each assignment in source order;
num is stored as str(num), sample_upwards as True, sampled_count as 0. No
other attribute is ever set by the constructor. -/
def collectionInit (num : ℤ) (up_start_time down_start_time bleed_duration : ℤ)
    (up_driving_pressure down_driving_pressure : ℚ) (upwards_bleed : Bool)
    (up_duration down_duration : ℤ) (tank : Option ℕ) : PyObject :=
  ⟨[(AttrName.num, PyVal.str (toString num)),
    (AttrName.up_start_time, PyVal.int up_start_time),
    (AttrName.down_start_time, PyVal.int down_start_time),
    (AttrName.bleed_duration, PyVal.int bleed_duration),
    (AttrName.up_driving_pressure, PyVal.rat up_driving_pressure),
    (AttrName.down_driving_pressure, PyVal.rat down_driving_pressure),
    (AttrName.upwards_bleed, PyVal.bool upwards_bleed),
    (AttrName.up_duration, PyVal.int up_duration),
    (AttrName.down_duration, PyVal.int down_duration),
    (AttrName.tank, PyVal.tankRef tank),
    (AttrName.sample_upwards, PyVal.bool true),
    (AttrName.sampled_count, PyVal.int 0)]⟩

/-- The numeric content of a Python value, for use in an arithmetic
expression; none when the value is not a number (a TypeError in Python). -/
def PyVal.asRat : PyVal → Option ℚ
  | PyVal.int n => some (n : ℚ)
  | PyVal.rat q => some q
  | _ => none

/-- The success test of SampleUpwards._do_sample_collection at
src/pi/processes/process_sample_upwards.py line 198:
post_sample_tank_pressure >= 0.95 * c.up_final_stagnation_pressure, with the
attribute access modelled as a lookup so that none is the AttributeError the
Python expression raises when the collection lacks the attribute. -/
def successTestEval (c : PyObject) (postSampleTankPressure : ℚ) : Option Bool :=
  (pyGetAttr c AttrName.up_final_stagnation_pressure).bind fun v =>
    (v.asRat).map fun pc => decide (postSampleTankPressure ≥ (95 / 100) * pc)

/-! ### SwapTanks (src/pi/processes/process_swap_tanks.py) -/

/-- A tank as SwapTanks.execute consumes it: an object identity, the lifecycle
state, and the value its sensor's triple_pressure reads deliver (sensors are
modelled deterministic, so the sort key is a fixed value per tank). -/
structure STank where
  id : ℕ
  state : TankState
  triplePressure : ℚ
deriving DecidableEq, Repr

/-- The tank-partition loop of SwapTanks.execute (lines 55-66). The source
iterates for tank in self.tanks while ready_tanks aliases the very same list
(line 57 assigns the list object, not a copy) and removes each non-READY tank
from it mid-iteration; by Python list-iterator semantics the element directly
after each removed one is therefore never examined and stays in ready_tanks.
kept is the prefix of elements that remain in ready_tanks so far, rest the
unscanned suffix; the model removes the just-yielded element positionally,
which agrees with list.remove whenever the tank objects are pairwise
distinct. Returns (ready_tanks, last_resort_tanks, not_ready_tanks). -/
def partitionScan : List STank → List STank → List STank → List STank →
    List STank × List STank × List STank
  | kept, lastResort, notReady, [] => (kept, lastResort, notReady)
  | kept, lastResort, notReady, t :: rest =>
    if t.state = TankState.ready then
      partitionScan (kept ++ [t]) lastResort notReady rest
    else
      let lastResort' :=
        if t.state = TankState.lastResort then lastResort ++ [t] else lastResort
      let notReady' :=
        if t.state = TankState.lastResort then notReady else notReady ++ [t]
      match rest with
      | [] => (kept, lastResort', notReady')
      | s :: rest' => partitionScan (kept ++ [s]) lastResort' notReady' rest'

/-- Insert a tank into a list ascending by triple pressure, after entries
with a key ≤ its key, so that a left fold is a stable sort. -/
def insertTankLe (t : STank) : List STank → List STank
  | [] => [t]
  | s :: rest =>
    if t.triplePressure < s.triplePressure then t :: s :: rest
    else s :: insertTankLe t rest

/-- The stable ascending sort by triple pressure of SwapTanks.execute line 69
(Python list.sort with a key is stable). -/
def sortTanks (l : List STank) : List STank :=
  l.foldl (fun acc t => insertTankLe t acc) []

/-- The assignment loop of SwapTanks.execute (lines 71-94): each collection in
order takes the first remaining last-resort tank, else the first remaining
ready tank, else the first remaining other tank, else none (the logged
no-tank error). -/
def assignLoop : ℕ → List STank → List STank → List STank → List (Option STank)
  | 0, _, _, _ => []
  | n + 1, lr, rd, nr =>
    match lr with
    | t :: lr' => some t :: assignLoop n lr' rd nr
    | [] =>
      match rd with
      | t :: rd' => some t :: assignLoop n [] rd' nr
      | [] =>
        match nr with
        | t :: nr' => some t :: assignLoop n [] [] nr'
        | [] => none :: assignLoop n [] [] []

/-- SwapTanks.execute (lines 52-94) for a given tank list and collection
count: partition with the aliasing scan, sort the ready list ascending by
triple pressure, then assign in priority order. Entry i is the tank
associated to collection i. -/
def swapTanksExecute (tanks : List STank) (numCollections : ℕ) :
    List (Option STank) :=
  let parts := partitionScan [] [] [] tanks
  assignLoop numCollections parts.2.1 (sortTanks parts.1) parts.2.2

/-- Whether an assigned tank slot holds an other tank: one that is neither
LastResort nor Ready. -/
def isOtherAssigned : Option STank → Bool
  | none => false
  | some t =>
    decide (t.state ≠ TankState.lastResort) && decide (t.state ≠ TankState.ready)

/-- The C2 claim as the spec states it: with L LastResort tanks and R Ready
tanks sorted ascending by triple pressure, collection i receives the i-th
LastResort tank when i < L, else the (i-L)-th sorted Ready tank when
i - L < R, else an other tank. -/
def swapClaimHolds (tanks : List STank) : Prop :=
  let lrDecl := tanks.filter (fun t => decide (t.state = TankState.lastResort))
  let rdSorted :=
    sortTanks (tanks.filter (fun t => decide (t.state = TankState.ready)))
  let assignments := swapTanksExecute tanks tanks.length
  ∀ i, i < tanks.length →
    (i < lrDecl.length → assignments.getD i none = lrDecl.get? i) ∧
    (lrDecl.length ≤ i → i - lrDecl.length < rdSorted.length →
      assignments.getD i none = rdSorted.get? (i - lrDecl.length)) ∧
    (lrDecl.length + rdSorted.length ≤ i →
      isOtherAssigned (assignments.getD i none) = true)

instance (tanks : List STank) : Decidable (swapClaimHolds tanks) := by
  unfold swapClaimHolds; infer_instance

/-! ### InitialPressureCheck (src/pi/processes/process_initial_pressure_check.py) -/

/-- A tank as InitialPressureCheck.execute consumes it: the sensor's
cant_connect flag, the single pressure read, and the triple-pressure value
(the sensor is modelled deterministic: every triple read of the same tank in
one run delivers the same value). -/
structure IPCTank where
  id : ℕ
  cantConnect : Bool
  pressure : ℚ
  triplePressure : ℚ
deriving DecidableEq, Repr

/-- InitialPressureCheck p_unsafe (line 20): 900 hPa. -/
def pUnsafeBound : ℚ := 900

/-- InitialPressureCheck p_crit (line 21): 1050 hPa. -/
def pCritBound : ℚ := 1050

/-- The per-tank classification of InitialPressureCheck.execute
(lines 71-90): UNREACHABLE when cant_connect or the single read is -1, else
CRITICAL above p_crit, else UNSAFE above p_unsafe, else READY. -/
def classifyTank (t : IPCTank) : TankState :=
  if t.cantConnect = true ∨ t.pressure = -1 then TankState.unreachable
  else if t.triplePressure > pCritBound then TankState.critical
  else if t.triplePressure > pUnsafeBound then TankState.unsafePressure
  else TankState.ready

/-- The main-line probe of InitialPressureCheck.execute (lines 92-119): when
the manifold triple read used for the presence check is not -1, the main
valve is cycled and the plumbing is MAIN_LINE_FAILURE when the absolute
manifold delta exceeds 100 hPa or the post-probe pressure exceeds p_crit,
else READY; an absent manifold sensor means READY without probing. -/
def probePlumbing (check refP newP : ℚ) : PlumbingState :=
  if check ≠ -1 then
    if |newP - refP| > 100 then PlumbingState.mainLineFailure
    else if newP > pCritBound then PlumbingState.mainLineFailure
    else PlumbingState.ready
  else PlumbingState.ready

/-- Python min over (index, tank) pairs with the triple pressure as key
(line 134): the first pair attaining the minimal key, none for an empty
list. -/
def firstMinByPressure : List (ℕ × IPCTank) → Option (ℕ × IPCTank)
  | [] => none
  | p :: rest =>
    match firstMinByPressure rest with
    | none => some p
    | some b =>
      if p.2.triplePressure ≤ b.2.triplePressure then some p else some b

/-- The tanks of a list paired with their position, counting from n (the
iteration order of the matching-tank loop at lines 127-130). -/
def enumTanks : ℕ → List IPCTank → List (ℕ × IPCTank)
  | _, [] => []
  | n, t :: ts => (n, t) :: enumTanks (n + 1) ts

/-- Whether a tank is a candidate for the LAST_RESORT promotion (line 129):
classified UNSAFE or READY. -/
def isMatchingTank (t : IPCTank) : Prop :=
  classifyTank t = TankState.unsafePressure ∨ classifyTank t = TankState.ready

instance (t : IPCTank) : Decidable (isMatchingTank t) := by
  unfold isMatchingTank; infer_instance

/-- The index of the tank InitialPressureCheck promotes to LAST_RESORT
(lines 121-138), if any: promotion is skipped when the plumbing is READY and
every tank classified READY; otherwise the first lowest-triple-pressure tank
among those classified UNSAFE or READY is picked (none when no tank
matches). -/
def ipcPromotedIndex (tanks : List IPCTank) (plumbing : PlumbingState) :
    Option ℕ :=
  let states := tanks.map classifyTank
  let numberReady :=
    (states.filter (fun s => decide (s = TankState.ready))).length
  if plumbing = PlumbingState.ready ∧ numberReady = tanks.length then none
  else
    let matching :=
      (enumTanks 0 tanks).filter (fun p => decide (isMatchingTank p.2))
    (firstMinByPressure matching).map Prod.fst

/-- InitialPressureCheck.execute (lines 68-138): the final tank states, in
declaration order, and the plumbing state, for a run with the given manifold
probe reads. -/
def ipcExecute (tanks : List IPCTank) (check refP newP : ℚ) :
    List TankState × PlumbingState :=
  let plumbing := probePlumbing check refP newP
  let states := tanks.map classifyTank
  match ipcPromotedIndex tanks plumbing with
  | none => (states, plumbing)
  | some j => (states.set j TankState.lastResort, plumbing)

/-! ### SampleUpwards (src/pi/processes/process_sample_upwards.py) -/

/-- SampleUpwards delta_pressure_threshold (line 26): 50 hPa, the limit below
which a pressure change counts as no change. -/
def deltaPressureThreshold : ℚ := 50

/-- The sensor reads one _do_sample_collection run consumes: tankRead i is
the result of the i-th evaluation of c.tank.mprls.triple_pressure in the run,
manifoldRead i the i-th evaluation of the manifold sensor's triple_pressure.
The thermal-threshold flag is assumed untripped throughout (a trip aborts
every wait loop, which is the separately stated thermal behaviour). -/
structure SampleEnv where
  tankRead : ℕ → ℚ
  manifoldRead : ℕ → ℚ

/-- The return points of _do_sample_collection, one per return site:
sampled95 (line 201), exhausted retries (line 210), mainLineFailure
(line 219), valveFailed (line 223), vacuumCompromised (line 259),
sampledTsmall (line 268), and loopExit for falling out of the while loop with
no return (no branch ever reaches it from a fresh collection). -/
inductive SampleReason
  | sampled95
  | exhausted
  | mainLineFailure
  | valveFailed
  | vacuumCompromised
  | sampledTsmall
  | loopExit
deriving DecidableEq, Repr

/-- The observable outcome of one _do_sample_collection run: the tank state
(READY when no branch wrote it), the plumbing state (READY unless the main
line was implicated), the final sampled_count, the number of t_small probes
run, and the return point taken. -/
structure SampleOutcome where
  tankState : TankState
  plumbing : PlumbingState
  sampledCount : ℕ
  probes : ℕ
  reason : SampleReason
deriving DecidableEq, Repr

/-- The attempt loop of _do_sample_collection (lines 168-272), entered with
sampled_count = count and structural fuel remaining = 3 - count so that the
guard while sampled_count < 3 is the fuel test. Each iteration increments
sampled_count, samples, closes, reads the post-sample tank triple pressure
and, in source order: declares SAMPLED when it reaches 95 percent of
up_final_stagnation_pressure (line 198); declares FAILED_SAMPLE when
sampled_count >= 2 (line 207, the second try); when the tank delta is below
the threshold or either read is -1, reads the manifold and either sets
MAIN_LINE_FAILURE (delta below threshold, line 219) or FAILED_SAMPLE
(line 223); otherwise runs the t_small probe (lines 228-272) which fails the
sample on a small probe delta, succeeds on reaching the 95 percent target,
and otherwise loops. pc is c.up_final_stagnation_pressure, preTank and
preManifold the post-bleed reference pressures, tIdx and mIdx the number of
tank and manifold triple reads already consumed. -/
def sampleLoop (env : SampleEnv) (pc preTank preManifold : ℚ) :
    ℕ → ℕ → ℕ → ℕ → ℕ → SampleOutcome
  | 0, _, _, count, probes =>
    ⟨TankState.ready, PlumbingState.ready, count, probes, SampleReason.loopExit⟩
  | remaining + 1, tIdx, mIdx, count, probes =>
    let count' := count + 1
    let post := env.tankRead tIdx
    if post ≥ (95 / 100) * pc then
      ⟨TankState.sampled, PlumbingState.ready, count', probes,
        SampleReason.sampled95⟩
    else if count' ≥ 2 then
      ⟨TankState.failedSample, PlumbingState.ready, count', probes,
        SampleReason.exhausted⟩
    else if |post - preTank| < deltaPressureThreshold ∨ post = -1 ∨
        preTank = -1 then
      let postMan := env.manifoldRead mIdx
      if |postMan - preManifold| < deltaPressureThreshold then
        ⟨TankState.ready, PlumbingState.mainLineFailure, count', probes,
          SampleReason.mainLineFailure⟩
      else
        ⟨TankState.failedSample, PlumbingState.ready, count', probes,
          SampleReason.valveFailed⟩
    else
      let preTs := env.tankRead (tIdx + 1)
      let postTs := env.tankRead (tIdx + 2)
      let probes' := probes + 1
      if |postTs - preTs| < deltaPressureThreshold ∨ postTs = -1 ∨
          preTs = -1 then
        ⟨TankState.failedSample, PlumbingState.ready, count', probes',
          SampleReason.vacuumCompromised⟩
      else if postTs ≥ (95 / 100) * pc then
        ⟨TankState.sampled, PlumbingState.ready, count', probes',
          SampleReason.sampledTsmall⟩
      else
        sampleLoop env pc preTank preManifold remaining (tIdx + 3)
          mIdx count' probes'

/-- One full _do_sample_collection run (lines 136-272) for a fresh READY
collection, with the thermal flag untripped: read the post-bleed tank and
manifold reference pressures (lines 162-163), then enter the attempt loop
with sampled_count = 0. -/
def doSampleCollection (env : SampleEnv) (pc : ℚ) : SampleOutcome :=
  let preTank := env.tankRead 0
  let preManifold := env.manifoldRead 0
  sampleLoop env pc preTank preManifold 3 1 1 0 0

/-- The read sequence of the diagnosis-determinism scenario in which both the
tank and the manifold are flat: the tank triple pressure reads 100 hPa before
and after the attempt, the manifold 800 hPa before and after. -/
def envFlatTankFlatManifold : SampleEnv := ⟨fun _ => 100, fun _ => 800⟩

/-- The read sequence of the diagnosis-determinism scenario in which the tank
is flat but the manifold moves: the tank triple pressure reads 100 hPa before
and after, the manifold 810 hPa before the attempt and 880 hPa after. -/
def envFlatTankMovingManifold : SampleEnv :=
  ⟨fun _ => 100, fun i => if i = 0 then 810 else 880⟩

/-- A read sequence whose second sampling attempt fails the 95 percent test:
post-bleed tank reference 100 hPa, first attempt ends at 300 hPa (fails the
950 hPa target for pc = 1000 but moves more than the 50 hPa threshold), the
t_small probe moves the tank from 300 to 400 hPa (continuing flow, still
short of target), and the second attempt ends at 300 hPa. -/
def envSecondTryFail : SampleEnv :=
  ⟨fun i =>
    if i = 0 then 100
    else if i = 1 then 300
    else if i = 2 then 300
    else if i = 3 then 400
    else 300,
   fun _ => 800⟩

/-! ## Theorems -/

/-- C10: the thermal flag setter is not monotone: set_temp_thresh_reached
stores its argument unconditionally, so the getter returns exactly the
argument; in particular calling it with False on a tripped state clears the
flag. -/
theorem set_temp_thresh_reached_overwrites (st : LogPressuresState) (b : Bool) :
    getTempThreshReached (setTempThreshReached st b).1 = b ∧
    (setTempThreshReached { st with tempThreshReached := true }
      false).1.tempThreshReached = false := by
  constructor <;> rfl

/-- C8: once the thermal flag is tripped, LogPressures.execute leaves the
state unchanged, appends the telemetry row, and does not evaluate the
temperature comparison, whatever the readings. -/
theorem log_pressures_sticky_after_trip (st : LogPressuresState) (now : ℤ)
    (r : LogReadings) (h : st.tempThreshReached = true) :
    logPressuresExecute st now r = ⟨st, true, false⟩ := by
  simp [logPressuresExecute, h]

/-- C8 witness: the sticky behaviour at a concrete tripped state and concrete
readings. -/
theorem log_pressures_sticky_after_trip_witness :
    logPressuresExecute ⟨true, false, 0⟩ 5 ⟨480, 480, [500], [500]⟩ =
      ⟨⟨true, false, 0⟩, true, false⟩ :=
  log_pressures_sticky_after_trip ⟨true, false, 0⟩ 5 ⟨480, 480, [500], [500]⟩
    rfl

/-- C9: the acceptance-window logic matches the claim on every clock state
that carries the t0 attribute, but on a not-ready RTCWrappedSensor the
constructor never assigned t0, so an in-window correction dies with an
AttributeError at the first line of setEstT0 instead of being applied:
with the estimated reference at 1000000 ms and the trigger at 1002000 ms,
the implied offset of 2000 ms is inside the window, yet the callback
evaluates to none. On states whose t0 attribute exists, the correction is
applied iff the offset lies in [-120000 ms, 5000 ms]; outside the window the
state is unchanged and the ignore event is logged; inside it the new
reference is stored. -/
theorem gswitch_window_and_missing_t0 :
    getT0MS ⟨false, 1000000, none⟩ = some 1000000 ∧
    (-120000 ≤ (1002000 : ℤ) - 1000000 ∧ (1002000 : ℤ) - 1000000 ≤ 5000) ∧
    gswitchCallback ⟨false, 1000000, none⟩ 1002000 = none ∧
    (∀ (rdy : Bool) (ref t0v now : ℤ),
      ((∃ r, gswitchCallback ⟨rdy, ref, some t0v⟩ now = some r ∧
          r.applied = true) ↔
        (-120000 ≤ now - (if rdy then t0v else ref) ∧
         now - (if rdy then t0v else ref) ≤ 5000)) ∧
      (∀ r, gswitchCallback ⟨rdy, ref, some t0v⟩ now = some r →
        r.applied = false →
        r.rtc = ⟨rdy, ref, some t0v⟩ ∧ r.ignoredLogged = true) ∧
      (∀ r, gswitchCallback ⟨rdy, ref, some t0v⟩ now = some r →
        r.applied = true →
        r.rtc.t0 = some now ∧ r.rtc.ref = now ∧
        r.ignoredLogged = false)) := by
  refine ⟨rfl, by omega, rfl, ?_⟩
  intro rdy ref t0v now
  have hg : getT0MS ⟨rdy, ref, some t0v⟩ = some (if rdy then t0v else ref) := by
    cases rdy <;> rfl
  by_cases h : now - (if rdy then t0v else ref) < -120000 ∨
      now - (if rdy then t0v else ref) > 5000
  · refine ⟨?_, ?_, ?_⟩
    · simp only [gswitchCallback, hg, Option.bind_eq_bind, Option.some_bind,
        if_pos h]
      constructor
      · rintro ⟨r, hr, ha⟩
        rcases Option.some.inj hr with rfl
        exact absurd ha (by simp)
      · intro hw
        omega
    · intro r hr ha
      simp only [gswitchCallback, hg, Option.bind_eq_bind, Option.some_bind,
        if_pos h] at hr
      rcases Option.some.inj hr with rfl
      exact ⟨rfl, rfl⟩
    · intro r hr ha
      simp only [gswitchCallback, hg, Option.bind_eq_bind, Option.some_bind,
        if_pos h] at hr
      rcases Option.some.inj hr with rfl
      exact absurd ha (by simp)
  · refine ⟨?_, ?_, ?_⟩
    · simp only [gswitchCallback, hg, Option.bind_eq_bind, Option.some_bind,
        if_neg h, setEstT0, Option.map_some]
      constructor
      · intro _
        omega
      · intro _
        exact ⟨_, rfl, rfl⟩
    · intro r hr ha
      simp only [gswitchCallback, hg, Option.bind_eq_bind, Option.some_bind,
        if_neg h, setEstT0, Option.map_some] at hr
      rcases Option.some.inj hr with rfl
      exact absurd ha (by simp)
    · intro r hr ha
      simp only [gswitchCallback, hg, Option.bind_eq_bind, Option.some_bind,
        if_neg h, setEstT0, Option.map_some] at hr
      rcases Option.some.inj hr with rfl
      exact ⟨rfl, rfl, rfl⟩

/-- C1: for every Collection built by Collection.__init__, evaluating the
95 percent success test of SampleUpwards is an AttributeError (none), because
the constructor never assigns up_final_stagnation_pressure. -/
theorem success_test_raises_for_init_collection (num : ℤ)
    (up_start_time down_start_time bleed_duration : ℤ)
    (up_driving_pressure down_driving_pressure : ℚ) (upwards_bleed : Bool)
    (up_duration down_duration : ℤ) (tank : Option ℕ) (post : ℚ) :
    successTestEval
      (collectionInit num up_start_time down_start_time bleed_duration
        up_driving_pressure down_driving_pressure upwards_bleed
        up_duration down_duration tank) post = none := by
  rfl

/-- C6 counterexample: the tank-temperature bound used while actively
sampling (T_SAMPLE, 400 K) is not higher than the bound used otherwise
(T_ANYTIME, 470 K); it is lower. -/
theorem tank_temp_bound_not_higher_while_sampling :
    ¬ tankTempBound true > tankTempBound false := by
  norm_num [tankTempBound, tSample, tAnytime]

/-- C6 (amended): when the thermal flag is not yet tripped, the tank
temperatures are compared against a bound that is lower while actively
sampling (400 K) than otherwise (470 K), and the flag trips only with a
triple confirmation: either the DPV thermocouple's single and triple reads
both reach T_ANYTIME, or some tank's current temperature and some tank
sensor's triple temperature both reach the chosen bound. -/
theorem log_pressures_bound_and_triple_confirm (st : LogPressuresState)
    (now : ℤ) (r : LogReadings) (h : st.tempThreshReached = false) :
    tankTempBound true < tankTempBound false ∧
    ((logPressuresExecute st now r).st.tempThreshReached = true →
      (r.dpvTemp ≥ tAnytime ∧ r.dpvTripleTemp ≥ tAnytime) ∨
      ((∃ t ∈ r.tankTemps, t ≥ tankTempBound st.currentlySampling) ∧
       (∃ t ∈ r.tankTripleTemps, t ≥ tankTempBound st.currentlySampling))) := by
  constructor
  · norm_num [tankTempBound, tSample, tAnytime]
  · intro htrip
    by_cases hgate : now ≥ st.timeLastSampled + timeBtwTempChecks
    · by_cases hdpv : r.dpvTemp ≥ tAnytime ∧ r.dpvTripleTemp ≥ tAnytime
      · exact Or.inl hdpv
      · by_cases htank :
          (r.tankTemps.any fun t =>
            decide (t ≥ tankTempBound st.currentlySampling)) = true ∧
          (r.tankTripleTemps.any fun t =>
            decide (t ≥ tankTempBound st.currentlySampling)) = true
        · obtain ⟨ha, hb⟩ := htank
          simp only [List.any_eq_true, decide_eq_true_eq] at ha hb
          exact Or.inr ⟨ha, hb⟩
        · exfalso
          simp only [List.any_eq_true, decide_eq_true_eq, ge_iff_le] at htank
          have hres :
              (logPressuresExecute st now r).st.tempThreshReached = false := by
            simp [logPressuresExecute, h, hgate, hdpv, htank]
          rw [htrip] at hres
          exact Bool.true_eq_false.mp hres
    · exfalso
      have hres :
          (logPressuresExecute st now r).st.tempThreshReached = false := by
        simp [logPressuresExecute, h, hgate]
      rw [htrip] at hres
      exact Bool.true_eq_false.mp hres

/-- C6 witness: the amended statement applied at a concrete untripped state
and concrete readings. -/
theorem log_pressures_bound_and_triple_confirm_witness :
    tankTempBound true < tankTempBound false :=
  (log_pressures_bound_and_triple_confirm ⟨false, true, 0⟩ 100 ⟨0, 0, [], []⟩
    rfl).1

/-- C5: diagnosis determinism on the two concrete scenarios, for every target
stagnation pressure the 100 hPa post-sample reading fails: with the tank flat
at 100 hPa and the manifold flat at 800 hPa the attempt ends in
MainLineFailure with the tank state untouched and no retry; with the tank
flat and the manifold moving 810 to 880 hPa it ends in FailedSample with the
plumbing untouched and no retry. -/
theorem diagnosis_determinism (pc : ℚ) (h : 100 < (95 / 100) * pc) :
    doSampleCollection envFlatTankFlatManifold pc =
      ⟨TankState.ready, PlumbingState.mainLineFailure, 1, 0,
        SampleReason.mainLineFailure⟩ ∧
    doSampleCollection envFlatTankMovingManifold pc =
      ⟨TankState.failedSample, PlumbingState.ready, 1, 0,
        SampleReason.valveFailed⟩ := by
  have h' : ¬ (100 : ℚ) ≥ (95 / 100) * pc := not_le.mpr h
  have h2 : ¬ (19 / 20 : ℚ) * pc ≤ 100 := by
    rw [show (19 : ℚ) / 20 = 95 / 100 by norm_num]
    exact not_le.mpr h
  constructor
  · simp [doSampleCollection, sampleLoop, envFlatTankFlatManifold,
      deltaPressureThreshold, h']
  · norm_num [doSampleCollection, sampleLoop, envFlatTankMovingManifold,
      deltaPressureThreshold, h2]

/-- C5 witness: the two scenarios at the target stagnation pressure 1000 hPa
used by the repository's tests. -/
theorem diagnosis_determinism_witness :
    doSampleCollection envFlatTankFlatManifold 1000 =
      ⟨TankState.ready, PlumbingState.mainLineFailure, 1, 0,
        SampleReason.mainLineFailure⟩ ∧
    doSampleCollection envFlatTankMovingManifold 1000 =
      ⟨TankState.failedSample, PlumbingState.ready, 1, 0,
        SampleReason.valveFailed⟩ :=
  diagnosis_determinism 1000 (by norm_num)

/-- C4 counterexample: a run whose second attempt fails the 95 percent test
ends in FailedSample for exhausted retries with sampled_count 2, not 3: the
retry budget as the claim states it, 3 attempts with FailedSample on the 3rd
failure, is not what the code does. -/
theorem second_try_exhausts_budget :
    (doSampleCollection envSecondTryFail 1000).reason =
      SampleReason.exhausted ∧
    (doSampleCollection envSecondTryFail 1000).sampledCount = 2 ∧
    ¬ (doSampleCollection envSecondTryFail 1000).sampledCount = 3 := by
  norm_num [doSampleCollection, sampleLoop, envSecondTryFail,
    deltaPressureThreshold]

/-- C4 (amended): for every read sequence and target, a fresh collection's
attempt loop makes at most 2 sampling attempts, runs at most one t_small
probe, never falls out of the while loop, ends in FailedSample for exhausted
retries exactly when the second attempt's post-sample read (the fifth tank
read) fails the 95 percent target, and always terminates in Sampled,
FailedSample, or the main-line-failure diagnosis with the tank left READY. -/
theorem sample_attempt_budget (env : SampleEnv) (pc : ℚ) :
    (doSampleCollection env pc).sampledCount ≤ 2 ∧
    (doSampleCollection env pc).probes ≤ 1 ∧
    (doSampleCollection env pc).reason ≠ SampleReason.loopExit ∧
    ((doSampleCollection env pc).reason = SampleReason.exhausted ↔
      (doSampleCollection env pc).sampledCount = 2 ∧
      ¬ env.tankRead 4 ≥ (95 / 100) * pc) ∧
    ((doSampleCollection env pc).tankState = TankState.sampled ∨
     (doSampleCollection env pc).tankState = TankState.failedSample ∨
     ((doSampleCollection env pc).tankState = TankState.ready ∧
      (doSampleCollection env pc).plumbing = PlumbingState.mainLineFailure)) := by
  by_cases hA1 : env.tankRead 1 ≥ (95 / 100) * pc
  · have hrun : doSampleCollection env pc =
        ⟨TankState.sampled, PlumbingState.ready, 1, 0,
          SampleReason.sampled95⟩ := by
      simp [doSampleCollection, sampleLoop, hA1]
    rw [hrun]
    simp
  · by_cases hD1 : |env.tankRead 1 - env.tankRead 0| < deltaPressureThreshold ∨
        env.tankRead 1 = -1 ∨ env.tankRead 0 = -1
    · by_cases hM1 : |env.manifoldRead 1 - env.manifoldRead 0| <
          deltaPressureThreshold
      · have hrun : doSampleCollection env pc =
            ⟨TankState.ready, PlumbingState.mainLineFailure, 1, 0,
              SampleReason.mainLineFailure⟩ := by
          simp [doSampleCollection, sampleLoop, hA1, hD1, hM1]
        rw [hrun]
        simp
      · have hrun : doSampleCollection env pc =
            ⟨TankState.failedSample, PlumbingState.ready, 1, 0,
              SampleReason.valveFailed⟩ := by
          simp [doSampleCollection, sampleLoop, hA1, hD1, hM1]
        rw [hrun]
        simp
    · by_cases hP1 : |env.tankRead 3 - env.tankRead 2| <
          deltaPressureThreshold ∨ env.tankRead 3 = -1 ∨ env.tankRead 2 = -1
      · have hrun : doSampleCollection env pc =
            ⟨TankState.failedSample, PlumbingState.ready, 1, 1,
              SampleReason.vacuumCompromised⟩ := by
          simp [doSampleCollection, sampleLoop, hA1, hD1, hP1]
        rw [hrun]
        simp
      · by_cases hS1 : env.tankRead 3 ≥ (95 / 100) * pc
        · have hrun : doSampleCollection env pc =
              ⟨TankState.sampled, PlumbingState.ready, 1, 1,
                SampleReason.sampledTsmall⟩ := by
            simp [doSampleCollection, sampleLoop, hA1, hD1, hP1, hS1]
          rw [hrun]
          simp
        · by_cases hA2 : env.tankRead 4 ≥ (95 / 100) * pc
          · have hrun : doSampleCollection env pc =
                ⟨TankState.sampled, PlumbingState.ready, 2, 1,
                  SampleReason.sampled95⟩ := by
              simp [doSampleCollection, sampleLoop, hA1, hD1, hP1, hS1, hA2]
            rw [hrun]
            simp [hA2]
          · have hrun : doSampleCollection env pc =
                ⟨TankState.failedSample, PlumbingState.ready, 2, 1,
                  SampleReason.exhausted⟩ := by
              simp [doSampleCollection, sampleLoop, hA1, hD1, hP1, hS1, hA2]
            rw [hrun]
            simp [hA2]
/-- C3 counterexample: with two of the three raw samples at the sentinel and
one valid sample of 500 hPa, NovaPressureSensor.triple_pressure returns 500,
the valid sample, not the sentinel. -/
theorem two_sentinels_not_sentinel :
    novaTriplePressure (-1) (-1) 500 = 500 ∧
    ¬ novaTriplePressure (-1) (-1) 500 = -1 := by
  norm_num [novaTriplePressure, pyMax3, validSamples, pyMedian, pySort,
    insertLe]

/-- C3 (amended): for raw samples that are reachable from the pressure
accessor (each the sentinel or positive), the triple-sample accessor returns
the sentinel exactly when no sample is valid, and the median of the valid
samples whenever at least one is; likewise for the wrapped hardware sensor,
whose failed reads contribute nothing. -/
theorem triple_pressure_median_of_valid (p0 p1 p2 : ℚ)
    (h0 : p0 = -1 ∨ 0 < p0) (h1 : p1 = -1 ∨ 0 < p1) (h2 : p2 = -1 ∨ 0 < p2) :
    (validSamples p0 p1 p2 = [] → novaTriplePressure p0 p1 p2 = -1) ∧
    (validSamples p0 p1 p2 ≠ [] →
      novaTriplePressure p0 p1 p2 = pyMedian (validSamples p0 p1 p2)) ∧
    (∀ r0 r1 r2 : Option ℚ,
      ([r0, r1, r2].filterMap id = [] → wrappedTriplePressure r0 r1 r2 = -1) ∧
      ([r0, r1, r2].filterMap id ≠ [] →
        wrappedTriplePressure r0 r1 r2 =
          pyMedian ([r0, r1, r2].filterMap id))) := by
  refine ⟨?_, ?_, ?_⟩
  · intro hv
    simp only [validSamples, List.filter_eq_nil_iff, List.mem_cons,
      List.not_mem_nil, or_false, decide_eq_true_eq, not_not] at hv
    have hp0 := hv p0 (Or.inl rfl)
    have hp1 := hv p1 (Or.inr (Or.inl rfl))
    have hp2 := hv p2 (Or.inr (Or.inr rfl))
    simp [novaTriplePressure, pyMax3, hp0, hp1, hp2]
  · intro hv
    obtain ⟨a, ha⟩ := List.exists_mem_of_ne_nil _ hv
    have hmem := (List.mem_filter.mp ha).1
    have hne : ¬ a = -1 := by
      have := (List.mem_filter.mp ha).2
      simpa using this
    have hpos : 0 < a := by
      simp only [List.mem_cons, List.not_mem_nil, or_false] at hmem
      rcases hmem with rfl | rfl | rfl
      · exact h0.resolve_left hne
      · exact h1.resolve_left hne
      · exact h2.resolve_left hne
    have hle : a ≤ pyMax3 p0 p1 p2 := by
      simp only [List.mem_cons, List.not_mem_nil, or_false] at hmem
      unfold pyMax3
      rcases hmem with rfl | rfl | rfl
      · exact le_max_left _ _
      · exact le_trans (le_max_left _ _) (le_max_right _ _)
      · exact le_trans (le_max_right _ _) (le_max_right _ _)
    have hmax : pyMax3 p0 p1 p2 ≠ -1 := by
      intro hm
      rw [hm] at hle
      linarith
    simp [novaTriplePressure, hmax]
  · intro r0 r1 r2
    constructor
    · intro hv
      simp [wrappedTriplePressure, hv]
    · intro hv
      simp only [wrappedTriplePressure]
      rw [if_neg (by simpa [List.isEmpty_iff] using hv)]

/-- C3 witness: the amended statement applied at the concrete reachable
samples 3, sentinel, 7, and at three failed wrapped reads. -/
theorem triple_pressure_median_witness :
    novaTriplePressure 3 (-1) 7 = pyMedian (validSamples 3 (-1) 7) ∧
    wrappedTriplePressure none none none = -1 :=
  ⟨(triple_pressure_median_of_valid 3 (-1) 7 (Or.inr (by norm_num))
      (Or.inl rfl) (Or.inr (by norm_num))).2.1 (by decide),
   ((triple_pressure_median_of_valid 3 (-1) 7 (Or.inr (by norm_num))
      (Or.inl rfl) (Or.inr (by norm_num))).2.2 none none none).1 (by simp)⟩

/-- C2: on the tank list [UNSAFE at 10 hPa, CRITICAL at 5 hPa, READY at
100 hPa] with 3 collections, SwapTanks.execute assigns the CRITICAL tank to
collection 0 and the READY tank to collection 1: ready_tanks aliases
self.tanks (line 57), so removing the UNSAFE tank mid-iteration skips the
CRITICAL tank, which stays in the ready list and sorts ahead of the READY
tank. The claimed assignment law, which demands the 0th Ready tank for
collection 0, therefore fails. -/
theorem swap_tanks_alias_misassigns :
    swapTanksExecute
      [⟨0, TankState.unsafePressure, 10⟩, ⟨1, TankState.critical, 5⟩,
        ⟨2, TankState.ready, 100⟩] 3 =
      [some ⟨1, TankState.critical, 5⟩, some ⟨2, TankState.ready, 100⟩,
        some ⟨0, TankState.unsafePressure, 10⟩] ∧
    ¬ swapClaimHolds
      [⟨0, TankState.unsafePressure, 10⟩, ⟨1, TankState.critical, 5⟩,
        ⟨2, TankState.ready, 100⟩] := by
  constructor
  · decide
  · decide
theorem classifyTank_total (t : IPCTank) :
    classifyTank t = TankState.unreachable ∨
    classifyTank t = TankState.critical ∨
    classifyTank t = TankState.unsafePressure ∨
    classifyTank t = TankState.ready := by
  unfold classifyTank
  split_ifs <;> simp

theorem classifyTank_ne_lastResort (t : IPCTank) :
    classifyTank t ≠ TankState.lastResort := by
  unfold classifyTank
  split_ifs <;> simp

theorem map_classify_get_ne_lastResort (tanks : List IPCTank) (i : ℕ) :
    (tanks.map classifyTank).get? i ≠ some TankState.lastResort := by
  rw [List.get?_map]
  cases h : tanks.get? i with
  | none => simp
  | some t => simp [classifyTank_ne_lastResort t]

theorem firstMinByPressure_eq_none {l : List (ℕ × IPCTank)} :
    firstMinByPressure l = none ↔ l = [] := by
  cases l with
  | nil => simp [firstMinByPressure]
  | cons a tl =>
    simp only [firstMinByPressure]
    constructor
    · intro h
      exfalso
      cases hh : firstMinByPressure tl with
      | none =>
        simp only [hh] at h
        exact Option.noConfusion h
      | some b =>
        simp only [hh] at h
        by_cases hc : a.2.triplePressure ≤ b.2.triplePressure
        · rw [if_pos hc] at h; exact Option.noConfusion h
        · rw [if_neg hc] at h; exact Option.noConfusion h
    · intro h
      exact absurd h (List.cons_ne_nil a tl)

theorem firstMinByPressure_mem {l : List (ℕ × IPCTank)} {p : ℕ × IPCTank}
    (h : firstMinByPressure l = some p) : p ∈ l := by
  induction l generalizing p with
  | nil => simp [firstMinByPressure] at h
  | cons a tl ih =>
    simp only [firstMinByPressure] at h
    cases hh : firstMinByPressure tl with
    | none =>
      simp only [hh] at h
      rcases Option.some.inj h with rfl
      exact List.mem_cons_self a tl
    | some b =>
      simp only [hh] at h
      by_cases hc : a.2.triplePressure ≤ b.2.triplePressure
      · rw [if_pos hc] at h
        rcases Option.some.inj h with rfl
        exact List.mem_cons_self a tl
      · rw [if_neg hc] at h
        rcases Option.some.inj h with rfl
        exact List.mem_cons_of_mem a (ih hh)

theorem firstMinByPressure_le {l : List (ℕ × IPCTank)} {p : ℕ × IPCTank}
    (h : firstMinByPressure l = some p) :
    ∀ q ∈ l, p.2.triplePressure ≤ q.2.triplePressure := by
  induction l generalizing p with
  | nil => simp [firstMinByPressure] at h
  | cons a tl ih =>
    intro q hq
    simp only [firstMinByPressure] at h
    cases hh : firstMinByPressure tl with
    | none =>
      simp only [hh] at h
      rcases Option.some.inj h with rfl
      have htl : tl = [] := firstMinByPressure_eq_none.mp hh
      subst htl
      rcases List.mem_cons.mp hq with rfl | hq'
      · exact le_refl _
      · exact absurd hq' (List.not_mem_nil q)
    | some b =>
      simp only [hh] at h
      rcases List.mem_cons.mp hq with rfl | hq'
      · by_cases hc : q.2.triplePressure ≤ b.2.triplePressure
        · rw [if_pos hc] at h
          rcases Option.some.inj h with rfl
          exact le_refl _
        · rw [if_neg hc] at h
          rcases Option.some.inj h with rfl
          exact le_of_lt (lt_of_not_le hc)
      · by_cases hc : a.2.triplePressure ≤ b.2.triplePressure
        · rw [if_pos hc] at h
          rcases Option.some.inj h with rfl
          exact le_trans hc (ih hh q hq')
        · rw [if_neg hc] at h
          rcases Option.some.inj h with rfl
          exact ih hh q hq'

theorem mem_enumTanks {n : ℕ} {l : List IPCTank} {i : ℕ} {t : IPCTank} :
    (i, t) ∈ enumTanks n l ↔ ∃ k, l.get? k = some t ∧ i = n + k := by
  induction l generalizing n with
  | nil => simp [enumTanks]
  | cons a tl ih =>
    simp only [enumTanks, List.mem_cons, ih]
    constructor
    · rintro (h | ⟨k, hk, hik⟩)
      · rw [Prod.mk.injEq] at h
        obtain ⟨rfl, rfl⟩ := h
        exact ⟨0, by simp, by omega⟩
      · exact ⟨k + 1, by simpa using hk, by omega⟩
    · rintro ⟨k, hk, rfl⟩
      cases k with
      | zero =>
        left
        rw [List.get?_cons_zero] at hk
        rcases Option.some.inj hk with rfl
        simp
      | succ k' =>
        right
        exact ⟨k', by simpa using hk, by omega⟩

theorem get?_set_self {α : Type} (l : List α) (j : ℕ) (a : α)
    (h : j < l.length) : (l.set j a).get? j = some a := by
  induction l generalizing j with
  | nil => simp at h
  | cons x xs ih =>
    cases j with
    | zero => rfl
    | succ j' =>
      simp only [List.set, List.get?]
      exact ih j' (by simpa using h)

theorem get?_set_ne {α : Type} (l : List α) (j k : ℕ) (a : α) (h : j ≠ k) :
    (l.set j a).get? k = l.get? k := by
  induction l generalizing j k with
  | nil => simp
  | cons x xs ih =>
    cases j with
    | zero =>
      cases k with
      | zero => exact absurd rfl h
      | succ k' => simp [List.set]
    | succ j' =>
      cases k with
      | zero => simp [List.set]
      | succ k' =>
        simp only [List.set, List.get?]
        exact ih j' k' (fun hh => h (by rw [hh]))

theorem filter_len_eq_all {α : Type} (p : α → Bool) (l : List α)
    (h : (l.filter p).length = l.length) : ∀ a ∈ l, p a = true := by
  induction l with
  | nil => simp
  | cons x xs ih =>
    by_cases hx : p x = true
    · rw [List.filter_cons_of_pos hx] at h
      simp only [List.length_cons] at h
      intro a ha
      rcases List.mem_cons.mp ha with rfl | ha'
      · exact hx
      · exact ih (by omega) a ha'
    · exfalso
      rw [List.filter_cons_of_neg (by simpa using hx)] at h
      have hle := List.length_filter_le p xs
      simp only [List.length_cons] at h
      omega

/-- C7: InitialPressureCheck assigns every tank exactly one of Unreachable,
Critical, Unsafe, Ready; at most one tank ends the run as LastResort; and
when the plumbing is Ready with some tank not Ready, or the plumbing is
MainLineFailure, and some tank is classified Unsafe or Ready, then a tank of
minimal triple pressure among those classified Unsafe or Ready ends the run
as LastResort. -/
theorem ipc_classification_and_last_resort (tanks : List IPCTank)
    (check refP newP : ℚ) :
    (∀ t : IPCTank, classifyTank t = TankState.unreachable ∨
      classifyTank t = TankState.critical ∨
      classifyTank t = TankState.unsafePressure ∨
      classifyTank t = TankState.ready) ∧
    (∀ i k,
      (ipcExecute tanks check refP newP).1.get? i =
        some TankState.lastResort →
      (ipcExecute tanks check refP newP).1.get? k =
        some TankState.lastResort → i = k) ∧
    (((probePlumbing check refP newP = PlumbingState.ready ∧
        ¬ ∀ t ∈ tanks, classifyTank t = TankState.ready) ∨
       probePlumbing check refP newP = PlumbingState.mainLineFailure) →
      (∃ t ∈ tanks, isMatchingTank t) →
      ∃ j tj, tanks.get? j = some tj ∧ isMatchingTank tj ∧
        (∀ u ∈ tanks, isMatchingTank u →
          tj.triplePressure ≤ u.triplePressure) ∧
        (ipcExecute tanks check refP newP).1.get? j =
          some TankState.lastResort) := by
  refine ⟨classifyTank_total, ?_, ?_⟩
  · intro i k hi hk
    simp only [ipcExecute] at hi hk
    cases hidx : ipcPromotedIndex tanks (probePlumbing check refP newP) with
    | none =>
      rw [hidx] at hi
      exact absurd hi (map_classify_get_ne_lastResort tanks i)
    | some j =>
      rw [hidx] at hi hk
      by_cases hij : j = i
      · by_cases hjk : j = k
        · omega
        · rw [get?_set_ne _ _ _ _ hjk] at hk
          exact absurd hk (map_classify_get_ne_lastResort tanks k)
      · rw [get?_set_ne _ _ _ _ hij] at hi
        exact absurd hi (map_classify_get_ne_lastResort tanks i)
  · intro hcond hex
    have hno : ¬ (probePlumbing check refP newP = PlumbingState.ready ∧
        (((tanks.map classifyTank).filter
          (fun s => decide (s = TankState.ready))).length = tanks.length)) := by
      rintro ⟨hpr, hlen⟩
      rcases hcond with ⟨hpr2, hnall⟩ | hmlf
      · apply hnall
        intro t ht
        have hall := filter_len_eq_all
          (fun s => decide (s = TankState.ready)) (tanks.map classifyTank)
          (by rw [hlen, List.length_map])
        have := hall (classifyTank t) (List.mem_map_of_mem classifyTank ht)
        simpa using this
      · rw [hpr] at hmlf
        exact PlumbingState.noConfusion hmlf
    obtain ⟨t, ht, hmt⟩ := hex
    obtain ⟨k, hk⟩ := List.mem_iff_get?.mp ht
    have hkmem : (k, t) ∈ (enumTanks 0 tanks).filter
        (fun p => decide (isMatchingTank p.2)) :=
      List.mem_filter.mpr
        ⟨mem_enumTanks.mpr ⟨k, hk, by omega⟩, by simpa using hmt⟩
    cases hfm : firstMinByPressure ((enumTanks 0 tanks).filter
        (fun p => decide (isMatchingTank p.2))) with
    | none =>
      exfalso
      rw [firstMinByPressure_eq_none.mp hfm] at hkmem
      exact List.not_mem_nil _ hkmem
    | some pj =>
      obtain ⟨j, tj⟩ := pj
      have hidx : ipcPromotedIndex tanks (probePlumbing check refP newP) =
          some j := by
        simp only [ipcPromotedIndex]
        rw [if_neg hno, hfm]
        rfl
      have hmem := firstMinByPressure_mem hfm
      have hfilt := List.mem_filter.mp hmem
      obtain ⟨k2, hk2, hkk⟩ := mem_enumTanks.mp hfilt.1
      obtain rfl : j = k2 := by omega
      have hgetj : tanks.get? j = some tj := hk2
      have hmtj : isMatchingTank tj := by simpa using hfilt.2
      refine ⟨j, tj, hgetj, hmtj, ?_, ?_⟩
      · intro u hu hmu
        obtain ⟨ku, hku⟩ := List.mem_iff_get?.mp hu
        have humem : (ku, u) ∈ (enumTanks 0 tanks).filter
            (fun p => decide (isMatchingTank p.2)) :=
          List.mem_filter.mpr
            ⟨mem_enumTanks.mpr ⟨ku, hku, by omega⟩, by simpa using hmu⟩
        exact firstMinByPressure_le hfm (ku, u) humem
      · simp only [ipcExecute]
        rw [hidx]
        apply get?_set_self
        rw [List.length_map]
        obtain ⟨hlt, -⟩ := List.get?_eq_some.mp hgetj
        exact hlt

end AIR
